import Mathlib

/-!
Shallow embedding of the packet-loss-checker repository
(`src/main.py`, class `VALORANTServerTracker`), covering the probe unit
(`ping_server`), the metrics aggregator (`calculate_stats`), the diagnosis
engine (`_analyze_comparison`), the result store (`save_results` CSV export,
`import_results` / `_import_csv_results` / `_import_json_stats`) and the
probe scheduler (`run_continuous_test`, `test_reference_servers`).

Python floats are modelled as exact rationals; the `ping3` transport and the
wall clock are environment parameters; file contents are explicit values.
-/

namespace PacketLoss

/-- `PingResult` from `src/main.py` lines 36-43: one measurement.
`latency` is `Optional[float]`, modelled as `Option ℚ`. -/
structure PingResult where
  timestamp : String
  server : String
  latency : Option ℚ
  packet_loss : Bool
  timeout : Bool
deriving DecidableEq, Repr

/-- The possible responses of the `ping3.ping` transport as `ping_server`
observes them (`src/main.py` lines 116-146): a measured round-trip time in
seconds (`ping3` can also return `False`, which the code multiplies by 1000,
i.e. behaves as `ok 0`), `None` on timeout, or a raised exception. -/
inductive PingOutcome where
  | ok (rtt : ℚ)
  | timeout
  | err
deriving DecidableEq, Repr

/-- `VALORANTServerTracker.ping_server` (`src/main.py` lines 112-146), with
the wall-clock timestamp and the transport response passed explicitly.
On a reply the latency is converted to milliseconds (`latency * 1000`); on
`None` or an exception the result is lost with `timeout = True`. -/
def ping_server (timestamp server : String) (o : PingOutcome) : PingResult :=
  match o with
  | .ok rtt => ⟨timestamp, server, some (rtt * 1000), false, false⟩
  | .timeout => ⟨timestamp, server, none, true, true⟩
  | .err => ⟨timestamp, server, none, true, true⟩

/-- The `details` dict built at `src/main.py` lines 758-765. -/
structure AnalysisDetails where
  packet_loss_diff : ℚ
  latency_diff : ℚ
  valorant_loss : ℚ
  reference_loss : ℚ
  valorant_latency : ℚ
  reference_latency : ℚ
deriving DecidableEq, Repr

/-- The `analysis` dict returned by `_analyze_comparison`
(`src/main.py` lines 702-767). -/
structure Analysis where
  problem_source : String
  confidence : String
  recommendation : List String
  details : AnalysisDetails
deriving DecidableEq, Repr

/-- The recommendation appended when `latency_diff > 20`
(`src/main.py` line 754). -/
def latencyRec : String := "VALORANTサーバーへの経路に遅延があります"

/-- The primary classification stage of `_analyze_comparison`
(`src/main.py` lines 715-750): the `(problem_source, confidence,
recommendation)` triple as it stands after the loss-rate decision tree and
before the latency comparison.  It depends only on the two loss rates. -/
def primaryClassification (val_loss ref_loss : ℚ) : String × String × List String :=
  if val_loss - ref_loss > 3 then
    if ref_loss < 1 then
      ("valorant_servers", "high",
        ["VALORANTサーバーに問題がある可能性が高いです",
         "別のVALORANTリージョンを試してください",
         "Riot Gamesの公式ステータスページを確認してください"])
    else
      ("network_general", "medium",
        ["全般的なネットワーク問題の可能性があります",
         "ISPに問い合わせることを検討してください"])
  else if val_loss - ref_loss < -1 then
    ("network_routing", "medium",
      ["特定の経路に問題がある可能性があります",
       "VPNの使用を検討してください"])
  else if val_loss > 2 then
    ("network_general", "high",
      ["全般的なネットワーク品質の問題です",
       "Wi-Fi接続の場合は有線接続を試してください",
       "他のデバイスのネットワーク使用量を確認してください"])
  else
    ("no_significant_issue", "high",
      ["ネットワーク品質は正常範囲内です"])

/-- `VALORANTServerTracker._analyze_comparison` (`src/main.py` lines
702-767).  After the primary classification, when `latency_diff > 20` the
latency recommendation is appended and a `no_significant_issue` outcome is
rewritten to `valorant_latency` (lines 753-756). -/
def analyzeComparison (val_loss ref_loss val_latency ref_latency : ℚ) : Analysis :=
  { problem_source :=
      if val_latency - ref_latency > 20 ∧
          (primaryClassification val_loss ref_loss).1 = "no_significant_issue" then
        "valorant_latency"
      else (primaryClassification val_loss ref_loss).1,
    confidence := (primaryClassification val_loss ref_loss).2.1,
    recommendation :=
      if val_latency - ref_latency > 20 then
        (primaryClassification val_loss ref_loss).2.2 ++ [latencyRec]
      else (primaryClassification val_loss ref_loss).2.2,
    details := ⟨val_loss - ref_loss, val_latency - ref_latency,
      val_loss, ref_loss, val_latency, ref_latency⟩ }

/-! ## Result store: CSV export and import -/

/-- ASCII lowercasing, modelling Python `str.lower()` on the boolean cells
(`'True'`/`'False'` are ASCII). -/
def lowerStr (s : String) : String := String.mk (s.data.map Char.toLower)

/-- Python `str(bool)` as the CSV writer renders it
(`src/main.py` lines 449-455). -/
def boolCell (b : Bool) : String := if b then "True" else "False"

/-- `row['Packet_Loss'].lower() == 'true'` (`src/main.py` lines 940-941). -/
def parseBoolCell (s : String) : Bool := lowerStr s == "true"

/-- The `Latency(ms)` cell of one CSV row: the sentinel `N/A`, a number that
`float(...)` parses back exactly, or text on which `float(...)` raises. -/
inductive LatCell where
  | na
  | num (q : ℚ)
  | bad
deriving DecidableEq, Repr

/-- One data row of the exported CSV (`src/main.py` line 446 header:
Timestamp, Server, Latency(ms), Packet_Loss, Timeout). -/
structure CsvRow where
  timestamp : String
  server : String
  latencyCell : LatCell
  packet_loss : String
  timeout : String
deriving DecidableEq, Repr

/-- One row as `save_results` writes it (`src/main.py` lines 448-455).
The latency cell is `result.latency if result.latency else 'N/A'`: Python
truthiness makes both `None` and `0.0` fall to the `'N/A'` sentinel. -/
def exportRow (r : PingResult) : CsvRow :=
  { timestamp := r.timestamp,
    server := r.server,
    latencyCell := match r.latency with
      | some q => if q = 0 then .na else .num q
      | none => .na,
    packet_loss := boolCell r.packet_loss,
    timeout := boolCell r.timeout }

/-- The rows of the tabular artifact `save_results` writes for a result log
(`src/main.py` lines 443-455). -/
def save_results_rows (log : List PingResult) : List CsvRow :=
  log.map exportRow

/-- Reconstruction of one `PingResult` from a CSV row
(`src/main.py` lines 937-950); `float(row['Latency(ms)'])` on unparseable
text raises, modelled as `Except.error`. -/
def importRow (row : CsvRow) : Except Unit PingResult :=
  match row.latencyCell with
  | .bad => .error ()
  | .na => .ok ⟨row.timestamp, row.server, none,
      parseBoolCell row.packet_loss, parseBoolCell row.timeout⟩
  | .num q => .ok ⟨row.timestamp, row.server, some q,
      parseBoolCell row.packet_loss, parseBoolCell row.timeout⟩

/-- The `imported_results` list `_import_csv_results` builds before touching
the session (`src/main.py` lines 933-950); the first malformed row aborts
the whole parse. -/
def import_csv_rows (rows : List CsvRow) : Except Unit (List PingResult) :=
  rows.mapM importRow

/-! ## Session state and the import paths -/

/-- The session state of `VALORANTServerTracker.__init__`
(`src/main.py` lines 82-89) that the import paths touch: the two result
logs, the selected region, and the start time (kept as its ISO string). -/
structure Session where
  results : List PingResult
  reference_results : List PingResult
  current_region : String
  start_time : Option String
deriving DecidableEq, Repr

/-- A fresh session (`src/main.py` lines 85-89). -/
def initSession : Session :=
  { results := [], reference_results := [],
    current_region := "Tokyo (Japan)", start_time := none }

/-- `VALORANT_SERVERS` (`src/main.py` lines 60-71), in source order
(Python dicts iterate in insertion order). -/
def VALORANT_SERVERS : List (String × List String) :=
  [("Tokyo (Japan)", ["52.77.252.242", "13.230.149.157"]),
   ("Seoul (Korea)", ["43.201.103.1", "13.124.145.30"]),
   ("Sydney (Australia)", ["13.236.8.0", "3.104.90.0"]),
   ("Singapore", ["18.143.118.0", "13.229.188.0"]),
   ("Mumbai (India)", ["13.234.74.0", "3.109.44.0"]),
   ("Hong Kong", ["18.162.190.0", "13.75.118.0"]),
   ("Virginia (US East)", ["52.70.118.0", "3.208.28.0"]),
   ("California (US West)", ["54.241.191.0", "13.57.254.0"]),
   ("London (EU West)", ["18.130.91.0", "3.8.37.0"]),
   ("Frankfurt (EU Central)", ["18.196.142.0", "3.122.224.0"])]

/-- `REFERENCE_SERVERS` (`src/main.py` lines 74-80). -/
def REFERENCE_SERVERS : List (String × List String) :=
  [("Discord", ["162.159.130.232", "162.159.135.232"]),
   ("YouTube (Google)", ["8.8.8.8", "8.8.4.4"]),
   ("Cloudflare", ["1.1.1.1", "1.0.0.1"]),
   ("Amazon (AWS)", ["52.95.110.1", "54.230.0.1"]),
   ("Microsoft", ["13.107.42.14", "40.76.4.15"])]

/-- `_estimate_region_from_servers` (`src/main.py` lines 1021-1034): the
first region (in table order) one of whose addresses occurs in the result
log becomes `current_region`; no match, or an empty log, changes nothing. -/
def estimate_region (s : Session) : Session :=
  if s.results.isEmpty then s
  else
    match VALORANT_SERVERS.find?
        (fun p => p.2.any (fun srv => (s.results.map PingResult.server).contains srv)) with
    | some p => { s with current_region := p.1 }
    | none => s

/-- `_import_csv_results` (`src/main.py` lines 929-969) minus console I/O:
parse every row first; only then mutate the session.  `replace` is the
user's `y` answer to the replace prompt (only consulted when the current
log is non-empty; an empty log is assigned directly).  A parse error
raises with the session untouched (the raised session is the `Except.error`
payload).  On success the region is re-estimated. -/
def import_csv_results (rows : List CsvRow) (replace : Bool) (s : Session) :
    Except Session (Bool × Session) :=
  match import_csv_rows rows with
  | .error _ => .error s
  | .ok imported =>
    let s1 :=
      if s.results.isEmpty then { s with results := imported }
      else if replace then { s with results := imported }
      else { s with results := s.results ++ imported }
    .ok (true, estimate_region s1)

/-- The `start_time` entry of an imported JSON `test_info`
(`src/main.py` lines 985-987): the key may be missing, present but falsy,
present with a string `datetime.fromisoformat` accepts, or present with one
it raises on. -/
inductive JsonStartTime where
  | absent
  | falsy
  | good (iso : String)
  | bad
deriving DecidableEq, Repr

/-- The `test_info` object of the statistics JSON (`src/main.py`
lines 979-987): `region` may be missing. -/
structure JsonTestInfo where
  region : Option String
  start_time : JsonStartTime
deriving DecidableEq, Repr

/-- The `server_stats` object (`src/main.py` lines 990-1015): missing,
well-formed for the display loop, or malformed so that the display loop
raises (e.g. an entry missing `packet_loss_rate`). -/
inductive JsonServerStats where
  | absent
  | wellFormed
  | bad
deriving DecidableEq, Repr

/-- A statistics document as `json.load` returns it. -/
structure JsonStatsFile where
  test_info : Option JsonTestInfo
  server_stats : JsonServerStats
deriving DecidableEq, Repr

/-- The `server_stats` display phase of `_import_json_stats`
(`src/main.py` lines 990-1019): a malformed mapping raises, otherwise the
call returns `True`; the session is no longer touched here. -/
def jsonDisplayPhase (stats : JsonServerStats) (s : Session) :
    Except Session (Bool × Session) :=
  match stats with
  | .bad => .error s
  | _ => .ok (true, s)

/-- `_import_json_stats` (`src/main.py` lines 971-1019): `region` is applied
first, then `start_time` is parsed (raising on a malformed value AFTER the
region assignment), then the statistics are displayed. -/
def import_json_stats (j : JsonStatsFile) (s : Session) :
    Except Session (Bool × Session) :=
  match j.test_info with
  | none => jsonDisplayPhase j.server_stats s
  | some ti =>
    let s1 :=
      match ti.region with
      | some r => { s with current_region := r }
      | none => s
    match ti.start_time with
    | .bad => .error s1
    | .good iso => jsonDisplayPhase j.server_stats { s1 with start_time := some iso }
    | _ => jsonDisplayPhase j.server_stats s1

/-- What a named file holds: a CSV table (whose rows may still fail to
parse), a statistics document, or text `json.load` raises on. -/
inductive FileContent where
  | csvFile (rows : List CsvRow)
  | jsonFile (parsed : Option JsonStatsFile)
deriving Repr

/-- The session and outcome after an exception was either raised (payload:
the session at the raise point) or not. -/
def caught (e : Except Session (Bool × Session)) : Bool × Session :=
  match e with
  | .error s => (false, s)
  | .ok p => p

/-- Python `str.endswith`, realized over the character lists. -/
def pyEndsWith (s suffix : String) : Bool :=
  suffix.data.isSuffixOf s.data

/-- `import_results` (`src/main.py` lines 903-927): dispatch on the file
name's suffix; `FileNotFoundError` and any exception from the sub-imports
are caught and folded into a `False` return.  The filesystem is a partial
map from names to contents; a `.csv`-named file whose content is not a
CSV table makes the row loop raise (missing columns), and a JSON-named file
whose content `json.load` cannot parse raises, both before any mutation. -/
def import_results (fs : String → Option FileContent) (replace : Bool)
    (filename : String) (s : Session) : Bool × Session :=
  if pyEndsWith filename ".csv" then
    match fs filename with
    | none => (false, s)
    | some (.csvFile rows) => caught (import_csv_results rows replace s)
    | some (.jsonFile _) => (false, s)
  else if pyEndsWith filename "_stats.json" || pyEndsWith filename ".json" then
    match fs filename with
    | none => (false, s)
    | some (.jsonFile none) => (false, s)
    | some (.jsonFile (some j)) => caught (import_json_stats j s)
    | some (.csvFile _) => (false, s)
  else (false, s)

/-! ## Probe scheduler -/

/-- One pass of the inner `for server in servers` loop of
`run_continuous_test` (`src/main.py` lines 182-202): each server of the
region is probed in order and the result appended.  A tick carries the
timestamps the clock hands out and the transport's response per server. -/
def tickResults (servers : List String) (tick : String × (String → PingOutcome)) :
    List PingResult :=
  servers.map (fun srv => ping_server tick.1 srv (tick.2 srv))

/-- The result log a whole campaign accumulates: the log starts empty
(`self.results.clear()`, `src/main.py` line 152) and each tick appends its
batch. -/
def scheduledResults (servers : List String)
    (ticks : List (String × (String → PingOutcome))) : List PingResult :=
  ticks.foldl (fun log tick => log ++ tickResults servers tick) []

/-- `run_continuous_test` (`src/main.py` lines 148-212) as a state
transformer: records the start time, CLEARS the results log, then runs the
ticks, appending each probe's result. -/
def run_continuous_test (now : String) (servers : List String)
    (ticks : List (String × (String → PingOutcome))) (s : Session) : Session :=
  { s with start_time := some now,
           results := ticks.foldl (fun log tick => log ++ tickResults servers tick) [] }

/-- One pass of the `for service, server in test_servers.items()` loop of
`test_reference_servers` (`src/main.py` lines 613-632): the first address
of each reference service is probed and the result's `server` field is
rewritten to `service|address` before appending. -/
def referenceTickResults (tick : String × (String → PingOutcome)) : List PingResult :=
  REFERENCE_SERVERS.filterMap (fun p =>
    match p.2 with
    | [] => none
    | addr :: _ =>
      let r := ping_server tick.1 addr (tick.2 addr)
      some { r with server := p.1 ++ "|" ++ addr })

/-- `test_reference_servers` (`src/main.py` lines 575-638): CLEARS the
reference log (`self.reference_results.clear()`, line 579), then appends
one batch per tick. -/
def test_reference_servers (ticks : List (String × (String → PingOutcome)))
    (s : Session) : Session :=
  { s with reference_results :=
      ticks.foldl (fun log tick => log ++ referenceTickResults tick) [] }

/-! ## Metrics aggregator -/

/-- `NetworkStats` (`src/main.py` lines 45-54). -/
structure NetworkStats where
  total_packets : Nat
  lost_packets : Nat
  packet_loss_rate : ℚ
  min_latency : ℚ
  max_latency : ℚ
  avg_latency : ℚ
  jitter : ℚ
deriving DecidableEq, Repr

/-- The sample variance underlying `statistics.stdev`
(denominator `n - 1`). -/
def sampleVariance (l : List ℚ) : ℚ :=
  (l.map (fun x => (x - l.sum / (l.length : ℚ)) ^ 2)).sum / ((l.length : ℚ) - 1)

/-- The per-server body of `calculate_stats` (`src/main.py` lines 298-325).
`statistics.stdev` takes a square root on floats; the embedding keeps that
root abstract as `sqrtFn` (no claim depends on its value: every claim about
`jitter` lands in the guarded branches where it is `0`). -/
def statsFor (sqrtFn : ℚ → ℚ) (rs : List PingResult) : NetworkStats :=
  let total := rs.length
  let lost := (rs.filter (fun r => r.packet_loss)).length
  let rate : ℚ := if 0 < total then ((lost : ℚ) / (total : ℚ)) * 100 else 0
  match rs.filterMap PingResult.latency with
  | [] => ⟨total, lost, rate, 0, 0, 0, 0⟩
  | h :: t =>
    ⟨total, lost, rate, t.foldl min h, t.foldl max h,
      (h :: t).sum / ((h :: t).length : ℚ),
      if 1 < (h :: t).length then sqrtFn (sampleVariance (h :: t)) else 0⟩

/-- First-occurrence deduplication, realizing the `set(...)` of
`src/main.py` line 297 as a list (the claims only use it as a mapping). -/
def dedupFirst : List String → List String
  | [] => []
  | a :: t => a :: (dedupFirst t).filter (fun b => b != a)

/-- `calculate_stats` (`src/main.py` lines 292-327): group the result log by
server and compute each group's `NetworkStats`. -/
def calculate_stats (sqrtFn : ℚ → ℚ) (results : List PingResult) :
    List (String × NetworkStats) :=
  (dedupFirst (results.map PingResult.server)).map
    (fun srv => (srv, statsFor sqrtFn (results.filter (fun r => r.server == srv))))

/-! ## Helper lemmas -/

/-- The primary classification never produces the demoted code itself. -/
lemma primary_ne_valorant_latency (vl rl : ℚ) :
    (primaryClassification vl rl).1 ≠ "valorant_latency" := by
  unfold primaryClassification
  split_ifs <;> simp

/-! ## Claim C9 -/

/-- Claim C9: every `PingResult` the probe unit constructs has `timeout`
equal to `packet_loss` — the flag is true exactly when the probe is lost,
on the timeout path, the exception path and the success path alike, so the
Timeout column never distinguishes a timeout from another failure. -/
theorem c9_timeout_flag_equals_packet_loss (ts srv : String) (o : PingOutcome) :
    (ping_server ts srv o).timeout = (ping_server ts srv o).packet_loss := by
  cases o <;> rfl

/-! ## Claim C10 -/

/-- Claim C10: on every input, `_analyze_comparison` returns a
`problem_source` among the five real codes and a `confidence` that is
`high` or `medium`: the `unknown`/`low` placeholders are overwritten on
every control-flow path. -/
theorem c10_placeholders_always_overwritten (vl rl vlat rlat : ℚ) :
    ((analyzeComparison vl rl vlat rlat).problem_source = "valorant_servers" ∨
     (analyzeComparison vl rl vlat rlat).problem_source = "network_general" ∨
     (analyzeComparison vl rl vlat rlat).problem_source = "network_routing" ∨
     (analyzeComparison vl rl vlat rlat).problem_source = "no_significant_issue" ∨
     (analyzeComparison vl rl vlat rlat).problem_source = "valorant_latency") ∧
    ((analyzeComparison vl rl vlat rlat).confidence = "high" ∨
     (analyzeComparison vl rl vlat rlat).confidence = "medium") := by
  unfold analyzeComparison primaryClassification
  split_ifs <;> simp_all

/-! ## Claim C1 -/

/-- Claim C1 (amended): `_analyze_comparison` implements the fixed threshold
tree on `loss_diff = val_loss - ref_loss` — with the one exception the
latency demotion forces: in the final cell (comparable loss rates, target
loss at most 2) the returned source is `no_significant_issue` only when
`latency_diff ≤ 20`, and `valorant_latency` otherwise; confidence is `high`
there either way. -/
theorem c1_loss_threshold_decision_tree (vl rl vlat rlat : ℚ) :
    (vl - rl > 3 → rl < 1 →
      (analyzeComparison vl rl vlat rlat).problem_source = "valorant_servers" ∧
      (analyzeComparison vl rl vlat rlat).confidence = "high") ∧
    (vl - rl > 3 → ¬rl < 1 →
      (analyzeComparison vl rl vlat rlat).problem_source = "network_general" ∧
      (analyzeComparison vl rl vlat rlat).confidence = "medium") ∧
    (¬vl - rl > 3 → vl - rl < -1 →
      (analyzeComparison vl rl vlat rlat).problem_source = "network_routing" ∧
      (analyzeComparison vl rl vlat rlat).confidence = "medium") ∧
    (¬vl - rl > 3 → ¬vl - rl < -1 → vl > 2 →
      (analyzeComparison vl rl vlat rlat).problem_source = "network_general" ∧
      (analyzeComparison vl rl vlat rlat).confidence = "high") ∧
    (¬vl - rl > 3 → ¬vl - rl < -1 → ¬vl > 2 →
      (analyzeComparison vl rl vlat rlat).problem_source =
        (if vlat - rlat > 20 then "valorant_latency" else "no_significant_issue") ∧
      (analyzeComparison vl rl vlat rlat).confidence = "high") := by
  unfold analyzeComparison primaryClassification
  split_ifs <;> simp_all

/-- The spec's scenario for claim C1: target loss 8%, latency 40ms against
reference loss 0.2%, latency 20ms is classified `valorant_servers` with
high confidence (instantiating the theorem's first cell). -/
theorem c1_loss_threshold_decision_tree_witness :
    (8:ℚ) - 2/10 > 3 ∧ (2:ℚ)/10 < 1 ∧
    ((analyzeComparison 8 (2/10) 40 20).problem_source = "valorant_servers" ∧
     (analyzeComparison 8 (2/10) 40 20).confidence = "high") :=
  ⟨by norm_num, by norm_num,
   (c1_loss_threshold_decision_tree 8 (2/10) 40 20).1 (by norm_num) (by norm_num)⟩

/-- Counterexample to claim C1 as frozen: at target loss 0, reference loss
0, target latency 50, reference latency 0 the tree's final cell applies
(`loss_diff = 0`, target loss ≤ 2), so the claim demands
`no_significant_issue`; the code returns `valorant_latency`. -/
theorem c1_no_issue_cell_refuted :
    ¬((0:ℚ) - 0 > 3) ∧ ¬((0:ℚ) - 0 < -1) ∧ ¬((0:ℚ) > 2) ∧
    (analyzeComparison 0 0 50 0).problem_source ≠ "no_significant_issue" := by
  refine ⟨by norm_num, by norm_num, by norm_num, ?_⟩
  norm_num [analyzeComparison, primaryClassification]
  decide

/-! ## Claim C7 -/

/-- Claim C7: whenever `latency_diff > 20`, the latency recommendation is
appended, and the demotion to `valorant_latency` happens exactly when the
primary classification was `no_significant_issue`; any other primary
classification survives unchanged. -/
theorem c7_demotion_only_from_no_issue (vl rl vlat rlat : ℚ)
    (h : vlat - rlat > 20) :
    (analyzeComparison vl rl vlat rlat).recommendation =
      (primaryClassification vl rl).2.2 ++ [latencyRec] ∧
    ((analyzeComparison vl rl vlat rlat).problem_source = "valorant_latency" ↔
      (primaryClassification vl rl).1 = "no_significant_issue") ∧
    ((primaryClassification vl rl).1 ≠ "no_significant_issue" →
      (analyzeComparison vl rl vlat rlat).problem_source =
        (primaryClassification vl rl).1) := by
  refine ⟨?_, ?_, ?_⟩
  · simp [analyzeComparison, h]
  · by_cases hp : (primaryClassification vl rl).1 = "no_significant_issue"
    · simp [analyzeComparison, h, hp]
    · simp [analyzeComparison, h, hp, primary_ne_valorant_latency vl rl]
  · intro hp
    simp [analyzeComparison, h, hp]

/-- Witness for claim C7 at target loss 0, reference loss 0, target latency
30, reference latency 0: the hypothesis `latency_diff > 20` holds and the
demotion fires from the no-issue primary classification. -/
theorem c7_demotion_only_from_no_issue_witness :
    (30:ℚ) - 0 > 20 ∧
    ((analyzeComparison 0 0 30 0).recommendation =
      (primaryClassification 0 0).2.2 ++ [latencyRec] ∧
    ((analyzeComparison 0 0 30 0).problem_source = "valorant_latency" ↔
      (primaryClassification 0 0).1 = "no_significant_issue") ∧
    ((primaryClassification 0 0).1 ≠ "no_significant_issue" →
      (analyzeComparison 0 0 30 0).problem_source = (primaryClassification 0 0).1)) :=
  ⟨by norm_num, c7_demotion_only_from_no_issue 0 0 30 0 (by norm_num)⟩

/-! ## Claim C4 -/

/-- Claim C4 (amended): a successful probe's latency is the transport's
round-trip time times 1000 (milliseconds), non-negative whenever the
transport's reading is; there is NO clamping of a literal-0 reading. -/
theorem c4_success_latency_times_1000 (ts srv : String) (rtt : ℚ) (h : 0 ≤ rtt) :
    (ping_server ts srv (.ok rtt)).latency = some (rtt * 1000) ∧
    (ping_server ts srv (.ok rtt)).packet_loss = false ∧
    ∀ q, (ping_server ts srv (.ok rtt)).latency = some q → 0 ≤ q := by
  refine ⟨rfl, rfl, ?_⟩
  intro q hq
  simp only [ping_server, Option.some.injEq] at hq
  rw [← hq]
  exact mul_nonneg h (by norm_num)

/-- Witness for claim C4 at a 1.5-second round trip. -/
theorem c4_success_latency_times_1000_witness :
    (0:ℚ) ≤ 3/2 ∧
    ((ping_server "t" "s" (.ok (3/2))).latency = some (3/2 * 1000) ∧
     (ping_server "t" "s" (.ok (3/2))).packet_loss = false ∧
     ∀ q, (ping_server "t" "s" (.ok (3/2))).latency = some q → 0 ≤ q) :=
  ⟨by norm_num, c4_success_latency_times_1000 "t" "s" (3/2) (by norm_num)⟩

/-- Counterexample to claim C4 as frozen: when the transport reports a
literal 0 round-trip time, the result is a success carrying latency 0 —
nothing clamps it to 1ms. -/
theorem c4_zero_latency_not_clamped :
    (ping_server "t" "s" (.ok 0)).packet_loss = false ∧
    (ping_server "t" "s" (.ok 0)).latency = some 0 ∧
    (some (0:ℚ) ≠ some (1:ℚ)) := by
  refine ⟨rfl, ?_, by norm_num⟩
  norm_num [ping_server]

/-! ## Claims C2 and C5: the tabular round trip -/

/-- The boolean cells survive the export/import round trip. -/
lemma parseBoolCell_boolCell (b : Bool) : parseBoolCell (boolCell b) = b := by
  cases b <;> decide

/-- A row of a result whose latency is not the falsy `0.0` survives the
round trip. -/
lemma importRow_exportRow (r : PingResult) (h : r.latency ≠ some 0) :
    importRow (exportRow r) = .ok r := by
  obtain ⟨ts, srv, lat, pl, tm⟩ := r
  cases lat with
  | none => simp [exportRow, importRow, parseBoolCell_boolCell]
  | some q =>
    have hq : ¬q = 0 := by
      intro e
      exact h (by simp [e])
    simp [exportRow, importRow, hq, parseBoolCell_boolCell]

/-- The whole-log round trip, for logs free of zero-latency successes. -/
lemma csv_roundtrip (log : List PingResult) (h : ∀ r ∈ log, r.latency ≠ some 0) :
    import_csv_rows (save_results_rows log) = .ok log := by
  induction log with
  | nil => rfl
  | cons r t ih =>
    have hr : importRow (exportRow r) = .ok r :=
      importRow_exportRow r (h r (List.mem_cons_self r t))
    have ht := ih (fun x hx => h x (List.mem_cons_of_mem r hx))
    simp only [save_results_rows, import_csv_rows, List.map_cons, List.mapM_cons, hr]
    simp only [save_results_rows, import_csv_rows] at ht
    rw [ht]
    rfl

/-- Claim C2 (amended): exporting the tabular log and re-importing it
reconstructs the `PingResult` sequence field-for-field, PROVIDED no
successful probe carries latency exactly 0 — a zero latency is falsy in
Python, is exported as the `N/A` sentinel, and comes back as a missing
latency. -/
theorem c2_csv_export_import_round_trip (log : List PingResult)
    (h : ∀ r ∈ log, r.latency ≠ some 0) :
    import_csv_rows (save_results_rows log) = .ok log :=
  csv_roundtrip log h

/-- Witness for claim C2 on a mixed log: one successful probe at 25ms and
one lost probe. -/
theorem c2_csv_export_import_round_trip_witness :
    (∀ r ∈ [(⟨"t1", "s", some (25:ℚ), false, false⟩ : PingResult),
            ⟨"t2", "s", none, true, true⟩], r.latency ≠ some 0) ∧
    import_csv_rows (save_results_rows
        [(⟨"t1", "s", some (25:ℚ), false, false⟩ : PingResult),
         ⟨"t2", "s", none, true, true⟩]) =
      .ok [(⟨"t1", "s", some (25:ℚ), false, false⟩ : PingResult),
           ⟨"t2", "s", none, true, true⟩] := by
  have hhyp : ∀ r ∈ [(⟨"t1", "s", some (25:ℚ), false, false⟩ : PingResult),
      ⟨"t2", "s", none, true, true⟩], r.latency ≠ some 0 := by
    intro r hr
    rcases List.mem_cons.mp hr with h1 | h1
    · subst h1
      simp only [ne_eq, Option.some.injEq]
      norm_num
    · rcases List.mem_cons.mp h1 with h2 | h2
      · subst h2
        simp
      · simp at h2
  exact ⟨hhyp, c2_csv_export_import_round_trip _ hhyp⟩

/-- Counterexample to claim C2 as frozen: a mixed log whose successful
probe carries latency 0 does not survive the round trip — the zero export
falls to `N/A` and imports as an absent latency. -/
theorem c2_round_trip_refuted :
    import_csv_rows (save_results_rows
        [(⟨"t1", "s", some 0, false, false⟩ : PingResult),
         ⟨"t2", "s", none, true, true⟩]) ≠
      .ok [(⟨"t1", "s", some 0, false, false⟩ : PingResult),
           ⟨"t2", "s", none, true, true⟩] := by
  have he : import_csv_rows (save_results_rows
      [(⟨"t1", "s", some 0, false, false⟩ : PingResult),
       ⟨"t2", "s", none, true, true⟩]) =
      .ok [(⟨"t1", "s", none, false, false⟩ : PingResult),
           ⟨"t2", "s", none, true, true⟩] := by
    simp [import_csv_rows, save_results_rows, exportRow, importRow,
      List.mapM_cons, parseBoolCell_boolCell]
    rfl
  rw [he]
  simp

/-- Claim C5 (amended): every result the probe unit constructs satisfies
`packet_loss = true ⟺ latency absent`; results reconstructed by the
tabular import satisfy it too PROVIDED the exported log satisfied it and
contained no zero-latency success (importing the export of a zero-latency
success yields `packet_loss = false` with latency absent). -/
theorem c5_lost_iff_latency_absent :
    (∀ (ts srv : String) (o : PingOutcome),
        ((ping_server ts srv o).packet_loss = true ↔
          (ping_server ts srv o).latency = none)) ∧
    (∀ log : List PingResult,
        (∀ r ∈ log, ((r.packet_loss = true ↔ r.latency = none) ∧ r.latency ≠ some 0)) →
        ∀ out, import_csv_rows (save_results_rows log) = .ok out →
          ∀ r ∈ out, (r.packet_loss = true ↔ r.latency = none)) := by
  constructor
  · intro ts srv o
    cases o <;> simp [ping_server]
  · intro log h out hout r hr
    have hol : out = log := by
      have hrt := csv_roundtrip log (fun x hx => (h x hx).2)
      rw [hrt] at hout
      exact (Except.ok.inj hout).symm
    subst hol
    exact (h r hr).1

/-- Witness for claim C5 on the import-reconstruction side, at a
single-element log with a 25ms success. -/
theorem c5_lost_iff_latency_absent_witness :
    ((⟨"t1", "s", some (25:ℚ), false, false⟩ : PingResult).packet_loss = true ↔
      (⟨"t1", "s", some (25:ℚ), false, false⟩ : PingResult).latency = none) := by
  refine c5_lost_iff_latency_absent.2
      [(⟨"t1", "s", some (25:ℚ), false, false⟩ : PingResult)] ?_
      [(⟨"t1", "s", some (25:ℚ), false, false⟩ : PingResult)] ?_ _ ?_
  · intro r hr
    rcases List.mem_cons.mp hr with h1 | h1
    · subst h1
      refine ⟨by simp, ?_⟩
      simp only [ne_eq, Option.some.injEq]
      norm_num
    · simp at h1
  · simp [import_csv_rows, save_results_rows, exportRow, importRow,
      List.mapM_cons, parseBoolCell_boolCell]
    rfl
  · simp

/-- Counterexample to claim C5 as frozen: importing the export of a
zero-latency success (which the probe unit can produce, since `ping3` may
report 0) yields a result held in the log with `packet_loss = false` and
no latency — the biconditional fails. -/
theorem c5_invariant_refuted :
    import_csv_rows (save_results_rows [ping_server "t" "s" (.ok 0)]) =
      .ok [(⟨"t", "s", none, false, false⟩ : PingResult)] ∧
    ¬((⟨"t", "s", none, false, false⟩ : PingResult).packet_loss = true ↔
      (⟨"t", "s", none, false, false⟩ : PingResult).latency = none) := by
  constructor
  · norm_num [import_csv_rows, save_results_rows, exportRow, importRow,
      ping_server, List.mapM_cons, parseBoolCell_boolCell]
    rfl
  · simp

/-! ## Claim C6 -/

/-- Appending folds factor through their initial accumulator. -/
lemma foldl_append_of_init {α β : Type} (f : α → List β) (init : List β)
    (l : List α) :
    l.foldl (fun acc a => acc ++ f a) init =
      init ++ l.foldl (fun acc a => acc ++ f a) [] := by
  induction l generalizing init with
  | nil => simp
  | cons a t ih =>
    simp only [List.foldl_cons, List.nil_append]
    rw [ih (init ++ f a), ih (f a), List.append_assoc]

/-- Claim C6 (amended): a scheduler run REPLACES the session's result log —
the log is cleared at the start of the run, so pre-run results do not
survive — and from then on is mutated only by appending: the log of a run
extended by further ticks is the shorter run's log with new results at the
end, and the final log never depends on the pre-run session contents.  The
reference-server run treats `reference_results` the same way. -/
theorem c6_scheduler_clears_then_appends (now : String) (servers : List String)
    (ticks more : List (String × (String → PingOutcome))) (s sOther : Session) :
    (run_continuous_test now servers ticks s).results = scheduledResults servers ticks ∧
    scheduledResults servers (ticks ++ more) =
      scheduledResults servers ticks ++ scheduledResults servers more ∧
    (run_continuous_test now servers ticks s).results =
      (run_continuous_test now servers ticks sOther).results ∧
    (test_reference_servers ticks s).reference_results =
      (test_reference_servers ticks sOther).reference_results := by
  refine ⟨rfl, ?_, rfl, rfl⟩
  unfold scheduledResults
  rw [List.foldl_append, foldl_append_of_init (tickResults servers)]

/-- Counterexample to claim C6 as frozen: a result present in the session
log before a scheduler run is gone after it — `run_continuous_test` clears
the log before probing. -/
theorem c6_append_only_refuted :
    ((⟨"t0", "1.2.3.4", some 5, false, false⟩ : PingResult) ∈
      (⟨[⟨"t0", "1.2.3.4", some 5, false, false⟩], [], "Tokyo (Japan)", none⟩ :
        Session).results) ∧
    ((⟨"t0", "1.2.3.4", some 5, false, false⟩ : PingResult) ∉
      (run_continuous_test "now" ["8.8.8.8"] [("t1", fun _ => PingOutcome.timeout)]
        ⟨[⟨"t0", "1.2.3.4", some 5, false, false⟩], [], "Tokyo (Japan)", none⟩).results) := by
  constructor
  · simp
  · simp [run_continuous_test, tickResults, ping_server]

/-! ## Claim C8 -/

/-- Deduplication keeps exactly the members. -/
lemma mem_dedupFirst {x : String} {l : List String} :
    x ∈ dedupFirst l ↔ x ∈ l := by
  induction l with
  | nil => simp [dedupFirst]
  | cons a t ih =>
    simp only [dedupFirst, List.mem_cons, List.mem_filter, bne_iff_ne, ne_eq, ih]
    by_cases e : x = a
    · simp [e]
    · simp [e]

/-- Looking a key up in a keyed map of itself yields its image. -/
lemma lookup_map_self (g : String → NetworkStats) (l : List String)
    (srv : String) (h : srv ∈ l) :
    (l.map (fun a => (a, g a))).lookup srv = some (g srv) := by
  induction l with
  | nil => simp at h
  | cons a t ih =>
    by_cases e : srv = a
    · subst e
      simp [List.lookup]
    · have ht : srv ∈ t := by
        rcases List.mem_cons.mp h with h1 | h1
        · exact absurd h1 e
        · exact h1
      have hbe : (srv == a) = false := by
        simp [e]
      simp only [List.map_cons, List.lookup, hbe]
      exact ih ht

/-- A non-empty group of all-lost results gets total = lost, rate 100 and
zeroed latency fields. -/
lemma statsFor_all_lost (f : ℚ → ℚ) (rs : List PingResult) (hne : rs ≠ [])
    (hl : ∀ r ∈ rs, r.packet_loss = true ∧ r.latency = none) :
    statsFor f rs = ⟨rs.length, rs.length, 100, 0, 0, 0, 0⟩ := by
  have hfm : rs.filterMap PingResult.latency = [] :=
    List.filterMap_eq_nil_iff.mpr (fun r hr => (hl r hr).2)
  have hfl : rs.filter (fun r => r.packet_loss) = rs :=
    List.filter_eq_self.mpr (fun r hr => (hl r hr).1)
  have hpos : 0 < rs.length := List.length_pos.mpr hne
  have hq : ((rs.length : ℚ) / (rs.length : ℚ)) * 100 = 100 := by
    rw [div_self (by exact_mod_cast Nat.pos_iff_ne_zero.mp hpos), one_mul]
  simp only [statsFor, hfm, hfl, if_pos hpos, hq]

/-- Claim C8: the aggregator's edge-case policy — an empty result log maps
to an empty statistics mapping, and an endpoint whose results are all lost
(no latency present) gets `min/max/avg/jitter = 0` and `loss_rate = 100`;
every computation is total (the zero divisions are guarded). -/
theorem c8_aggregator_edge_cases :
    (∀ f : ℚ → ℚ, calculate_stats f [] = []) ∧
    (∀ (f : ℚ → ℚ) (results : List PingResult) (srv : String),
      srv ∈ results.map PingResult.server →
      (∀ r ∈ results, r.server = srv → r.packet_loss = true ∧ r.latency = none) →
      ∃ st, (calculate_stats f results).lookup srv = some st ∧
        st.min_latency = 0 ∧ st.max_latency = 0 ∧ st.avg_latency = 0 ∧
        st.jitter = 0 ∧ st.packet_loss_rate = 100) := by
  constructor
  · intro f
    rfl
  · intro f results srv hmem hall
    have hsrv : srv ∈ dedupFirst (results.map PingResult.server) :=
      mem_dedupFirst.mpr hmem
    have hlk := lookup_map_self
      (fun a => statsFor f (results.filter (fun r => r.server == a)))
      (dedupFirst (results.map PingResult.server)) srv hsrv
    obtain ⟨r0, hr0, hs0⟩ : ∃ r ∈ results, r.server = srv := by
      simpa using hmem
    have hne : results.filter (fun r => r.server == srv) ≠ [] := by
      intro hnil
      have hin : r0 ∈ results.filter (fun r => r.server == srv) := by
        simp [List.mem_filter, hr0, hs0]
      rw [hnil] at hin
      simp at hin
    have hgrp : ∀ r ∈ results.filter (fun r => r.server == srv),
        r.packet_loss = true ∧ r.latency = none := by
      intro r hr
      have hsp := List.mem_filter.mp hr
      exact hall r hsp.1 (by simpa using hsp.2)
    have hst := statsFor_all_lost f (results.filter (fun r => r.server == srv)) hne hgrp
    refine ⟨statsFor f (results.filter (fun r => r.server == srv)), hlk,
      by rw [hst], by rw [hst], by rw [hst], by rw [hst], by rw [hst]⟩

/-- Witness for claim C8: a one-endpoint log holding a single lost probe
yields the zeroed statistics with a 100% loss rate. -/
theorem c8_aggregator_edge_cases_witness :
    ("s" ∈ ([(⟨"t", "s", none, true, true⟩ : PingResult)]).map PingResult.server) ∧
    ∃ st, (calculate_stats id [(⟨"t", "s", none, true, true⟩ : PingResult)]).lookup "s"
        = some st ∧
      st.min_latency = 0 ∧ st.max_latency = 0 ∧ st.avg_latency = 0 ∧
      st.jitter = 0 ∧ st.packet_loss_rate = 100 := by
  constructor
  · simp
  · refine c8_aggregator_edge_cases.2 id _ "s" (by simp) ?_
    intro r hr
    rcases List.mem_cons.mp hr with h1 | h1
    · subst h1
      intro _
      exact ⟨rfl, rfl⟩
    · simp at h1

/-! ## Claim C3 -/

/-- A CSV import that raises does so before touching the session. -/
lemma import_csv_results_error_eq (rows : List CsvRow) (replace : Bool)
    (s s' : Session) (h : import_csv_results rows replace s = .error s') :
    s' = s := by
  unfold import_csv_results at h
  cases hrows : import_csv_rows rows with
  | error e =>
    rw [hrows] at h
    exact (Except.error.inj h).symm
  | ok l =>
    rw [hrows] at h
    simp at h

/-- A CSV import that returns does so with `True`. -/
lemma import_csv_results_ok_fst (rows : List CsvRow) (replace : Bool)
    (s : Session) (p : Bool × Session)
    (h : import_csv_results rows replace s = .ok p) : p.1 = true := by
  unfold import_csv_results at h
  cases hrows : import_csv_rows rows with
  | error e =>
    rw [hrows] at h
    simp at h
  | ok l =>
    rw [hrows] at h
    exact (Except.ok.inj h) ▸ rfl

/-- The display phase returns `True` whenever it returns. -/
lemma jsonDisplayPhase_ok_fst (st : JsonServerStats) (s : Session)
    (p : Bool × Session) (h : jsonDisplayPhase st s = .ok p) : p.1 = true := by
  cases st with
  | bad => simp [jsonDisplayPhase] at h
  | absent => exact (Except.ok.inj h) ▸ rfl
  | wellFormed => exact (Except.ok.inj h) ▸ rfl

/-- A JSON import that returns does so with `True`. -/
lemma import_json_stats_ok_fst (j : JsonStatsFile) (s : Session)
    (p : Bool × Session) (h : import_json_stats j s = .ok p) : p.1 = true := by
  rcases j with ⟨ti, st⟩
  cases ti with
  | none => exact jsonDisplayPhase_ok_fst st s p h
  | some ti0 =>
    rcases ti0 with ⟨rg, stt⟩
    simp only [import_json_stats] at h
    cases rg <;> cases stt <;>
      first
      | exact jsonDisplayPhase_ok_fst _ _ _ h
      | simp at h

/-- Every session the JSON import path can leave behind — the raise
payload as well as the returned one — carries the original result logs:
only `current_region` and `start_time` are ever touched. -/
lemma import_json_stats_frame (j : JsonStatsFile) (s : Session) :
    (caught (import_json_stats j s)).2.results = s.results ∧
    (caught (import_json_stats j s)).2.reference_results = s.reference_results := by
  rcases j with ⟨ti, st⟩
  cases ti with
  | none => cases st <;> simp [import_json_stats, jsonDisplayPhase, caught]
  | some ti0 =>
    rcases ti0 with ⟨rg, stt⟩
    cases rg <;> cases stt <;> cases st <;>
      simp [import_json_stats, jsonDisplayPhase, caught]

/-- Claim C3 (amended): a failed import never touches the result logs, and
the failure is fully atomic for the tabular (CSV) path, for a missing
file and for an unsupported extension; the structured-statistics (JSON)
path, however, applies the region and start-time metadata as it parses,
so a failure there can leave `current_region`/`start_time` already
modified (refuting all-or-nothing for JSON). -/
theorem c3_import_failure_frame (fs : String → Option FileContent)
    (replace : Bool) (filename : String) (s : Session) :
    ((import_results fs replace filename s).1 = false →
      (import_results fs replace filename s).2.results = s.results ∧
      (import_results fs replace filename s).2.reference_results =
        s.reference_results) ∧
    ((import_results fs replace filename s).1 = false →
      pyEndsWith filename ".csv" = true →
      (import_results fs replace filename s).2 = s) ∧
    (fs filename = none → import_results fs replace filename s = (false, s)) ∧
    ((pyEndsWith filename ".csv" = false ∧
      (pyEndsWith filename "_stats.json" || pyEndsWith filename ".json") = false) →
      import_results fs replace filename s = (false, s)) := by
  unfold import_results
  split_ifs with h1 h2
  · cases hfs : fs filename with
    | none => simp [h1]
    | some c =>
      cases c with
      | jsonFile x => simp [h1, hfs]
      | csvFile rows =>
        cases hcsv : import_csv_results rows replace s with
        | error s' =>
          obtain rfl : s' = s := import_csv_results_error_eq rows replace s s' hcsv
          simp [caught, hcsv, hfs, h1]
        | ok p =>
          have hp1 := import_csv_results_ok_fst rows replace s p hcsv
          simp [caught, hcsv, hp1, hfs, h1]
  · cases hfs : fs filename with
    | none => simp [h2]
    | some c =>
      cases c with
      | csvFile rows => simp [h2, hfs]
      | jsonFile pj =>
        cases pj with
        | none => simp [h2, hfs]
        | some j =>
          have hfr := import_json_stats_frame j s
          refine ⟨fun _ => hfr, fun _ hcsv => absurd hcsv h1, fun hn => ?_,
            fun hx => absurd h2 (by simp [hx.2])⟩
          simp at hn
  · simp

/-- Witness for claim C3 on the two fully-atomic failure paths: importing
a `.csv` name an empty filesystem does not hold fails with the session as
it was, and so does importing a name with an unsupported extension even
when the filesystem holds a file under it. -/
theorem c3_import_failure_frame_witness :
    ((fun _ : String => (none : Option FileContent)) "a.csv" = none) ∧
    import_results (fun _ => none) true "a.csv" initSession = (false, initSession) ∧
    (pyEndsWith "notes.txt" ".csv" = false ∧
      (pyEndsWith "notes.txt" "_stats.json" || pyEndsWith "notes.txt" ".json") = false) ∧
    import_results (fun _ => some (FileContent.csvFile [])) true "notes.txt" initSession
      = (false, initSession) :=
  ⟨rfl,
   (c3_import_failure_frame (fun _ => none) true "a.csv" initSession).2.2.1 rfl,
   ⟨by decide, by decide⟩,
   (c3_import_failure_frame (fun _ => some (FileContent.csvFile [])) true
      "notes.txt" initSession).2.2.2 ⟨by decide, by decide⟩⟩

/-- Counterexample to claim C3 as frozen: a statistics document whose
`test_info` carries a region and a malformed `start_time` makes the import
fail AFTER the region was applied — the failed call returns `False` yet the
session's `current_region` has changed. -/
theorem c3_json_import_not_atomic :
    (import_results
        (fun n => if n = "bad_stats.json" then
          some (FileContent.jsonFile (some ⟨some ⟨some "Seoul (Korea)", .bad⟩, .absent⟩))
          else none)
        false "bad_stats.json" initSession).1 = false ∧
    (import_results
        (fun n => if n = "bad_stats.json" then
          some (FileContent.jsonFile (some ⟨some ⟨some "Seoul (Korea)", .bad⟩, .absent⟩))
          else none)
        false "bad_stats.json" initSession).2.current_region = "Seoul (Korea)" ∧
    initSession.current_region ≠ "Seoul (Korea)" := by
  have hcsv : pyEndsWith "bad_stats.json" ".csv" = false := by decide
  have hjson : (pyEndsWith "bad_stats.json" "_stats.json" ||
      pyEndsWith "bad_stats.json" ".json") = true := by decide
  refine ⟨?_, ?_, by decide⟩ <;>
    simp [import_results, hcsv, hjson, import_json_stats, caught]

end PacketLoss
